import Mathlib

/-!
Shallow embedding of `airflow/executors/executor_loader.py`: the executor
registry, the three-strategy name resolver (`import_executor_cls`), the
loader (`load_executor`), the composite celery-kubernetes builder, and the
lazily cached default-executor singleton (`get_default_executor`).

The Python dynamic import is modelled as an environment `ImportEnv` mapping a
dotted location to the type it loads to (or `none` on failure).  Side
effects on external collaborators (the configuration read and the plugin
registration call) are modelled as an explicit event trace returned next to
each result.  Exceptions are modelled with `Except` over an error datatype
distinguishing the low-level load error (`ImportError`) from the
user-facing configuration error (`AirflowConfigException`).
-/

namespace ExecutorLoader

/-- A loaded Python type (class object), identified by its qualified name. -/
structure PyType where
  name : String
deriving DecidableEq, Repr

/-- A Python instance: the class it was constructed from together with the
positional constructor arguments it was constructed with. -/
inductive PyObject where
  | inst : PyType → List PyObject → PyObject
deriving Repr

/-- Exceptions surfaced by the loader.  `importError` is the uniform
low-level load failure; `airflowConfigException` is the user-facing
configuration error raised by `load_executor`. -/
inductive PyError where
  | importError : String → PyError
  | airflowConfigException : String → PyError
deriving DecidableEq, Repr

/-- Observable calls to external collaborators, in order of occurrence. -/
inductive Event where
  | confGet : String → String → Event
  | integratePlugins : Event
deriving DecidableEq, Repr

/-- The dynamic-import environment: which dotted locations resolve to which
loaded type.  `none` means the load fails. -/
structure ImportEnv where
  load : String → Option PyType

/-- Modelled from the spec: `airflow.utils.module_loading.import_string`
(the Dynamic Loader, absent from src/) resolves a dotted location to a
loaded type and surfaces every load failure (module not found, attribute
not found, initialization failure) uniformly as a single load-error kind,
here `PyError.importError` carrying the dotted location. -/
def import_string (env : ImportEnv) (dotted_path : String) : Except PyError PyType :=
  match env.load dotted_path with
  | some t => Except.ok t
  | none => Except.error (PyError.importError dotted_path)

/-- Modelled from the spec: the logical-name constants of
`airflow.executors.executor_constants` (absent from src/), with the
standard values of the repository. -/
def LOCAL_EXECUTOR : String := "LocalExecutor"

def SEQUENTIAL_EXECUTOR : String := "SequentialExecutor"

def CELERY_EXECUTOR : String := "CeleryExecutor"

def CELERY_KUBERNETES_EXECUTOR : String := "CeleryKubernetesExecutor"

def DASK_EXECUTOR : String := "DaskExecutor"

def KUBERNETES_EXECUTOR : String := "KubernetesExecutor"

def DEBUG_EXECUTOR : String := "DebugExecutor"

/-- The class attribute `ExecutorLoader.executors`: the fixed registry of
logical names to canonical dotted locations. -/
def executors : List (String × String) :=
  [ (LOCAL_EXECUTOR, "airflow.executors.local_executor.LocalExecutor"),
    (SEQUENTIAL_EXECUTOR, "airflow.executors.sequential_executor.SequentialExecutor"),
    (CELERY_EXECUTOR, "airflow.executors.celery_executor.CeleryExecutor"),
    (CELERY_KUBERNETES_EXECUTOR,
      "airflow.executors.celery_kubernetes_executor.CeleryKubernetesExecutor"),
    (DASK_EXECUTOR, "airflow.executors.dask_executor.DaskExecutor"),
    (KUBERNETES_EXECUTOR, "airflow.executors.kubernetes_executor.KubernetesExecutor"),
    (DEBUG_EXECUTOR, "airflow.executors.debug_executor.DebugExecutor") ]

/-- Registry lookup: `executor_name in cls.executors` is `(executorsGet
name).isSome`, and `cls.executors[name]` is the value when present. -/
def executorsGet (name : String) : Option String :=
  (executors.find? (fun p => p.1 == name)).map (fun p => p.2)

/-- Python `cls.executors[key]` for the keys used by the composite builder;
all such keys are statically present in the registry. -/
def executorsItem (name : String) : String :=
  (executorsGet name).getD ""

/-- The `ConnectorSource` enum: where a resolved executor class came from. -/
inductive ConnectorSource where
  | CORE
  | PLUGIN
  | CUSTOM_PATH
deriving DecidableEq, Repr

/-- `ExecutorLoader.import_executor_cls`: registry first, then (for names
with exactly one dot) the plugin convention under the
`airflow.executors.` namespace with failures suppressed, then the literal
dotted path.  The returned trace records the call to
`plugins_manager.integrate_executor_plugins`. -/
def import_executor_cls (env : ImportEnv) (executor_name : String) :
    Except PyError (PyType × ConnectorSource) × List Event :=
  match executorsGet executor_name with
  | some loc => ((import_string env loc).map (fun t => (t, ConnectorSource.CORE)), [])
  | none =>
    if executor_name.toList.count '.' == 1 then
      -- `with suppress(ImportError, AttributeError)`: a failing plugin-namespace
      -- load is swallowed and control falls through to the literal path below.
      match import_string env ("airflow.executors." ++ executor_name) with
      | Except.ok t => (Except.ok (t, ConnectorSource.PLUGIN), [Event.integratePlugins])
      | Except.error _ =>
        ((import_string env executor_name).map (fun t => (t, ConnectorSource.CUSTOM_PATH)),
          [Event.integratePlugins])
    else
      ((import_string env executor_name).map (fun t => (t, ConnectorSource.CUSTOM_PATH)), [])

/-- `ExecutorLoader.__load_celery_kubernetes_executor`: instantiate the
celery and kubernetes executors from their registry entries, load the
composite class, and construct it with both instances as arguments. -/
def load_celery_kubernetes_executor (env : ImportEnv) : Except PyError PyObject := do
  let celeryTy ← import_string env (executorsItem CELERY_EXECUTOR)
  let celery_executor := PyObject.inst celeryTy []
  let kubTy ← import_string env (executorsItem KUBERNETES_EXECUTOR)
  let kubernetes_executor := PyObject.inst kubTy []
  let celery_kubernetes_executor_cls ← import_string env (executorsItem CELERY_KUBERNETES_EXECUTOR)
  return PyObject.inst celery_kubernetes_executor_cls [celery_executor, kubernetes_executor]

/-- The message of the `AirflowConfigException` raised by `load_executor`. -/
def resolutionErrMsg (executor_name : String) : String :=
  "The module/attribute could not be loaded. Please check \"executor\" key in \"core\" section. "
    ++ "Current value: \"" ++ executor_name ++ "\"."

/-- `ExecutorLoader.load_executor`: the composite name short-circuits to the
composite builder (outside the try/except); otherwise resolve the class and
instantiate it with no arguments, translating an `ImportError` into an
`AirflowConfigException` naming the configured value. -/
def load_executor (env : ImportEnv) (executor_name : String) :
    Except PyError PyObject × List Event :=
  if executor_name == CELERY_KUBERNETES_EXECUTOR then
    (load_celery_kubernetes_executor env, [])
  else
    match import_executor_cls env executor_name with
    | (Except.ok (executor_cls, _import_source), evs) =>
      (Except.ok (PyObject.inst executor_cls []), evs)
    | (Except.error (PyError.importError _), evs) =>
      (Except.error (PyError.airflowConfigException (resolutionErrMsg executor_name)), evs)
    | (Except.error e, evs) => (Except.error e, evs)

/-- The configuration collaborator: `conf.get(section, key)`. -/
structure ConfEnv where
  get : String → String → String

/-- The mutable class state: `ExecutorLoader._default_executor`. -/
structure LoaderState where
  default_executor : Option PyObject

/-- `ExecutorLoader.get_default_executor`: return the cached instance when
present; otherwise read the configured name, load it, store the instance on
success, and return it.  On failure the exception propagates before the
cache assignment, so the state is unchanged. -/
def get_default_executor (env : ImportEnv) (conf : ConfEnv) (st : LoaderState) :
    Except PyError PyObject × LoaderState × List Event :=
  match st.default_executor with
  | some e => (Except.ok e, st, [])
  | none =>
    let executor_name := conf.get "core" "EXECUTOR"
    let (res, evs) := load_executor env executor_name
    match res with
    | Except.ok i =>
      (Except.ok i, ⟨some i⟩, Event.confGet "core" "EXECUTOR" :: evs)
    | Except.error e => (Except.error e, st, Event.confGet "core" "EXECUTOR" :: evs)

/-- Whether an executor-load result failed with the user-facing
configuration error kind. -/
def errIsConfigException : Except PyError PyObject → Bool
  | Except.error (PyError.airflowConfigException _) => true
  | _ => false

lemma import_cls_trace_cases (env : ImportEnv) (s : String) :
    (import_executor_cls env s).2 = [] ∨
      (import_executor_cls env s).2 = [Event.integratePlugins] := by
  unfold import_executor_cls
  cases hg : executorsGet s with
  | some loc => simp
  | none =>
    by_cases hc : (s.toList.count '.' == 1) = true
    · simp only [hc, if_true]
      cases import_string env ("airflow.executors." ++ s) <;> simp
    · have hc2 : List.count '.' s.data ≠ 1 := by
        simpa using hc
      simp [hc2]

lemma import_cls_trace_empty (env : ImportEnv) (s : String)
    (h : executorsGet s ≠ none ∨ s.toList.count '.' ≠ 1) :
    (import_executor_cls env s).2 = [] := by
  unfold import_executor_cls
  cases hg : executorsGet s with
  | some loc => simp
  | none =>
    rcases h with h | h
    · exact absurd hg h
    · have hc2 : List.count '.' s.data ≠ 1 := h
      simp [hc2]

lemma load_executor_trace (env : ImportEnv) (s : String) :
    (load_executor env s).2 =
      if s == CELERY_KUBERNETES_EXECUTOR then [] else (import_executor_cls env s).2 := by
  unfold load_executor
  by_cases hs : (s == CELERY_KUBERNETES_EXECUTOR) = true
  · simp [hs]
  · simp only [Bool.not_eq_true] at hs
    simp only [hs, if_false]
    rcases hi : import_executor_cls env s with ⟨res, evs⟩
    cases res with
    | ok v => simp
    | error e => cases e <;> simp

/-- Claim C9: calling `import_executor_cls` directly with the reserved
composite identifier does not trigger composite construction — the
composite identifier is a registry key, so `import_executor_cls` returns
the class loaded from its registry entry tagged `CORE`, with no plugin
call, like any other registry name. -/
theorem C9_import_cls_composite_is_core (env : ImportEnv) (t : PyType)
    (h : env.load "airflow.executors.celery_kubernetes_executor.CeleryKubernetesExecutor"
      = some t) :
    import_executor_cls env CELERY_KUBERNETES_EXECUTOR =
      (Except.ok (t, ConnectorSource.CORE), []) := by
  unfold import_executor_cls
  have hg : executorsGet CELERY_KUBERNETES_EXECUTOR =
      some "airflow.executors.celery_kubernetes_executor.CeleryKubernetesExecutor" := rfl
  rw [hg]
  simp [import_string, h, Except.map]

/-- An import environment where only the canonical
location of the composite executor is loadable. -/
def envC9 : ImportEnv :=
  ⟨fun s =>
    if s = "airflow.executors.celery_kubernetes_executor.CeleryKubernetesExecutor" then
      some ⟨"CeleryKubernetesExecutor"⟩
    else none⟩

theorem C9_witness :
    import_executor_cls envC9 CELERY_KUBERNETES_EXECUTOR =
      (Except.ok (⟨"CeleryKubernetesExecutor"⟩, ConnectorSource.CORE), []) :=
  C9_import_cls_composite_is_core envC9 ⟨"CeleryKubernetesExecutor"⟩ (by decide)

/-- Claim C4: on the reserved composite identifier, `load_executor`
bypasses the generic strategies and returns the result of the composite builder;
the builder constructs exactly one celery instance and one kubernetes
instance from their registry entries and passes both to the composite
constructor of the composite class, celery first and kubernetes second. -/
theorem C4_composite_construction (env : ImportEnv) (ct kt et : PyType)
    (hc : env.load "airflow.executors.celery_executor.CeleryExecutor" = some ct)
    (hk : env.load "airflow.executors.kubernetes_executor.KubernetesExecutor" = some kt)
    (he : env.load "airflow.executors.celery_kubernetes_executor.CeleryKubernetesExecutor"
      = some et) :
    load_executor env CELERY_KUBERNETES_EXECUTOR = (load_celery_kubernetes_executor env, []) ∧
    load_celery_kubernetes_executor env =
      Except.ok (PyObject.inst et [PyObject.inst ct [], PyObject.inst kt []]) := by
  constructor
  · unfold load_executor
    simp
  · unfold load_celery_kubernetes_executor
    have h1 : executorsItem CELERY_EXECUTOR =
        "airflow.executors.celery_executor.CeleryExecutor" := rfl
    have h2 : executorsItem KUBERNETES_EXECUTOR =
        "airflow.executors.kubernetes_executor.KubernetesExecutor" := rfl
    have h3 : executorsItem CELERY_KUBERNETES_EXECUTOR =
        "airflow.executors.celery_kubernetes_executor.CeleryKubernetesExecutor" := rfl
    rw [h1, h2, h3]
    simp [import_string, hc, hk, he, Bind.bind, Except.bind, Pure.pure, Except.pure]

/-- An import environment where exactly the three composite-related
canonical locations are loadable. -/
def envC4 : ImportEnv :=
  ⟨fun s =>
    if s = "airflow.executors.celery_executor.CeleryExecutor" then some ⟨"CeleryExecutor"⟩
    else if s = "airflow.executors.kubernetes_executor.KubernetesExecutor" then
      some ⟨"KubernetesExecutor"⟩
    else if s = "airflow.executors.celery_kubernetes_executor.CeleryKubernetesExecutor" then
      some ⟨"CeleryKubernetesExecutor"⟩
    else none⟩

theorem C4_witness :
    load_executor envC4 CELERY_KUBERNETES_EXECUTOR =
      (load_celery_kubernetes_executor envC4, []) ∧
    load_celery_kubernetes_executor envC4 =
      Except.ok (PyObject.inst ⟨"CeleryKubernetesExecutor"⟩
        [PyObject.inst ⟨"CeleryExecutor"⟩ [], PyObject.inst ⟨"KubernetesExecutor"⟩ []]) :=
  C4_composite_construction envC4 ⟨"CeleryExecutor"⟩ ⟨"KubernetesExecutor"⟩
    ⟨"CeleryKubernetesExecutor"⟩ (by decide) (by decide) (by decide)

/-- Claim C7: a name that is not a registry key and has more than one dot
is loaded literally as a dotted location and tagged `CUSTOM_PATH`, with no
plugin attempt (empty collaborator trace). -/
theorem C7_multi_dot_custom_path (env : ImportEnv) (s : String) (t : PyType)
    (h1 : executorsGet s = none) (h2 : 1 < s.toList.count '.')
    (h3 : env.load s = some t) :
    import_executor_cls env s = (Except.ok (t, ConnectorSource.CUSTOM_PATH), []) := by
  unfold import_executor_cls
  rw [h1]
  have hc2 : List.count '.' s.data ≠ 1 := by
    have := h2
    simp only [String.toList] at this
    omega
  simp [hc2, import_string, h3, Except.map]

/-- An import environment where only the two-dot-plus path
`pkg.mod.MyExec` is loadable. -/
def envC7 : ImportEnv :=
  ⟨fun s => if s = "pkg.mod.MyExec" then some ⟨"MyExec"⟩ else none⟩

theorem C7_witness :
    import_executor_cls envC7 "pkg.mod.MyExec" =
      (Except.ok (⟨"MyExec"⟩, ConnectorSource.CUSTOM_PATH), []) :=
  C7_multi_dot_custom_path envC7 "pkg.mod.MyExec" ⟨"MyExec"⟩ (by decide) (by decide) (by decide)

/-- Claim C8: the plugin collaborator is never invoked unless resolution
reaches the plugin strategy — for a name that is the composite identifier,
or a registry key, or does not have exactly one dot, neither
`import_executor_cls` nor `load_executor` records a call to
`integrate_executor_plugins`. -/
theorem C8_plugin_call_only_on_plugin_path (env : ImportEnv) (s : String)
    (h : s = CELERY_KUBERNETES_EXECUTOR ∨ executorsGet s ≠ none ∨ s.toList.count '.' ≠ 1) :
    Event.integratePlugins ∉ (import_executor_cls env s).2 ∧
    Event.integratePlugins ∉ (load_executor env s).2 := by
  have himp : (import_executor_cls env s).2 = [] := by
    rcases h with h | h
    · apply import_cls_trace_empty
      left
      rw [h]
      decide
    · exact import_cls_trace_empty env s h
  refine ⟨by rw [himp]; simp, ?_⟩
  rw [load_executor_trace]
  by_cases hs : (s == CELERY_KUBERNETES_EXECUTOR) = true
  · simp [hs]
  · simp only [Bool.not_eq_true] at hs
    simp [hs, himp]

theorem C8_witness :
    Event.integratePlugins ∉ (import_executor_cls envC9 "LocalExecutor").2 ∧
    Event.integratePlugins ∉ (load_executor envC9 "LocalExecutor").2 :=
  C8_plugin_call_only_on_plugin_path envC9 "LocalExecutor" (Or.inr (Or.inl (by decide)))

/-- Claim C6 (amended): every registry key resolves through
`import_executor_cls` to the class at its canonical location tagged `CORE`;
and every registry key other than the reserved composite identifier is
instantiated by `load_executor` with zero constructor arguments. -/
theorem C6_registry_core_zero_args (env : ImportEnv) (k loc : String) (t : PyType)
    (hk : executorsGet k = some loc) (ht : env.load loc = some t) :
    (import_executor_cls env k).1 = Except.ok (t, ConnectorSource.CORE) ∧
    (k ≠ CELERY_KUBERNETES_EXECUTOR →
      (load_executor env k).1 = Except.ok (PyObject.inst t [])) := by
  have himp : import_executor_cls env k = (Except.ok (t, ConnectorSource.CORE), []) := by
    unfold import_executor_cls
    rw [hk]
    simp [import_string, ht, Except.map]
  refine ⟨by rw [himp], ?_⟩
  intro hne
  have hs : (k == CELERY_KUBERNETES_EXECUTOR) = false := by
    simp [hne]
  unfold load_executor
  simp only [hs, Bool.false_eq_true, if_false, himp]

/-- An import environment where only the canonical
location of the local executor is loadable. -/
def envC6 : ImportEnv :=
  ⟨fun s =>
    if s = "airflow.executors.local_executor.LocalExecutor" then some ⟨"LocalExecutor"⟩
    else none⟩

theorem C6_witness :
    (import_executor_cls envC6 "LocalExecutor").1 =
      Except.ok (⟨"LocalExecutor"⟩, ConnectorSource.CORE) ∧
    (load_executor envC6 "LocalExecutor").1 =
      Except.ok (PyObject.inst ⟨"LocalExecutor"⟩ []) := by
  have h := C6_registry_core_zero_args envC6 "LocalExecutor"
    "airflow.executors.local_executor.LocalExecutor" ⟨"LocalExecutor"⟩ (by decide) (by decide)
  exact ⟨h.1, h.2 (by decide)⟩

/-- Claim C6 fails as stated for the composite registry key: with every
registry location loadable, `load_executor` on `CeleryKubernetesExecutor`
(a registry key) returns the composite built with two constructor
arguments, not the registry class instantiated with zero arguments. -/
theorem C6_counterexample :
    executorsGet CELERY_KUBERNETES_EXECUTOR =
      some "airflow.executors.celery_kubernetes_executor.CeleryKubernetesExecutor" ∧
    (load_executor envC4 CELERY_KUBERNETES_EXECUTOR).1 =
      Except.ok (PyObject.inst ⟨"CeleryKubernetesExecutor"⟩
        [PyObject.inst ⟨"CeleryExecutor"⟩ [], PyObject.inst ⟨"KubernetesExecutor"⟩ []]) ∧
    (load_executor envC4 CELERY_KUBERNETES_EXECUTOR).1 ≠
      Except.ok (PyObject.inst ⟨"CeleryKubernetesExecutor"⟩ []) := by
  refine ⟨rfl, rfl, ?_⟩
  intro h
  rw [show (load_executor envC4 CELERY_KUBERNETES_EXECUTOR).1 =
      Except.ok (PyObject.inst ⟨"CeleryKubernetesExecutor"⟩
        [PyObject.inst ⟨"CeleryExecutor"⟩ [], PyObject.inst ⟨"KubernetesExecutor"⟩ []])
    from rfl] at h
  simp at h

lemma builder_error_is_import_error (env : ImportEnv) (e : PyError)
    (h : load_celery_kubernetes_executor env = Except.error e) :
    ∃ m, e = PyError.importError m := by
  unfold load_celery_kubernetes_executor import_string at h
  cases h1 : env.load (executorsItem CELERY_EXECUTOR) with
  | none =>
    rw [h1] at h
    simp [Bind.bind, Except.bind] at h
    exact ⟨_, h.symm⟩
  | some t1 =>
    rw [h1] at h
    cases h2 : env.load (executorsItem KUBERNETES_EXECUTOR) with
    | none =>
      rw [h2] at h
      simp [Bind.bind, Except.bind] at h
      exact ⟨_, h.symm⟩
    | some t2 =>
      rw [h2] at h
      cases h3 : env.load (executorsItem CELERY_KUBERNETES_EXECUTOR) with
      | none =>
        rw [h3] at h
        simp [Bind.bind, Except.bind] at h
        exact ⟨_, h.symm⟩
      | some t3 =>
        rw [h3] at h
        simp [Bind.bind, Except.bind, Pure.pure, Except.pure] at h

/-- Claim C5 (amended): a load failure during composite-backend
construction propagates to the caller of `load_executor` unchanged, as the
low-level import error — it is not translated into the user-facing
`AirflowConfigException` (the composite branch sits outside the
try/except), and there is no composite-specific error kind. -/
theorem C5_composite_error_propagates_raw (env : ImportEnv) (e : PyError)
    (h : load_celery_kubernetes_executor env = Except.error e) :
    (load_executor env CELERY_KUBERNETES_EXECUTOR).1 = Except.error e ∧
    ∃ m, e = PyError.importError m := by
  refine ⟨?_, builder_error_is_import_error env e h⟩
  unfold load_executor
  simp [h]

/-- An import environment where no location is loadable. -/
def envNone : ImportEnv := ⟨fun _ => none⟩

theorem C5_witness :
    (load_executor envNone CELERY_KUBERNETES_EXECUTOR).1 =
      Except.error (PyError.importError "airflow.executors.celery_executor.CeleryExecutor") ∧
    ∃ m, PyError.importError "airflow.executors.celery_executor.CeleryExecutor" =
      PyError.importError m :=
  C5_composite_error_propagates_raw envNone
    (PyError.importError "airflow.executors.celery_executor.CeleryExecutor") rfl

/-- Claim C5 fails as stated: when the load of the celery sub-backend fails, the
error reaching the caller of `load_executor` is the raw import error, not
the user-facing configuration error kind (`AirflowConfigException`) that
generic resolution failures produce. -/
theorem C5_counterexample :
    (load_executor envNone CELERY_KUBERNETES_EXECUTOR).1 =
      Except.error (PyError.importError "airflow.executors.celery_executor.CeleryExecutor") ∧
    errIsConfigException (load_executor envNone CELERY_KUBERNETES_EXECUTOR).1 = false :=
  ⟨rfl, rfl⟩

/-- Claim C1: for a non-registry name with exactly one dot whose
plugin-convention load fails, `import_executor_cls` silently falls through
and loads the name literally, tagging `CUSTOM_PATH` on success (and
`load_executor` then succeeds); an error reaches the caller only when the
literal-path load also fails, and `load_executor` surfaces it as the
user-facing configuration error. -/
theorem C1_plugin_failure_falls_through (env : ImportEnv) (s : String)
    (h0 : s ≠ CELERY_KUBERNETES_EXECUTOR)
    (h1 : executorsGet s = none)
    (h2 : s.toList.count '.' = 1)
    (h3 : env.load ("airflow.executors." ++ s) = none) :
    (∀ t, env.load s = some t →
      import_executor_cls env s =
        (Except.ok (t, ConnectorSource.CUSTOM_PATH), [Event.integratePlugins]) ∧
      (load_executor env s).1 = Except.ok (PyObject.inst t [])) ∧
    (env.load s = none →
      import_executor_cls env s =
        (Except.error (PyError.importError s), [Event.integratePlugins]) ∧
      (load_executor env s).1 =
        Except.error (PyError.airflowConfigException (resolutionErrMsg s))) := by
  have hc : List.count '.' s.data = 1 := h2
  have hplug : import_string env ("airflow.executors." ++ s) =
      Except.error (PyError.importError ("airflow.executors." ++ s)) := by
    simp [import_string, h3]
  have hbase : import_executor_cls env s =
      ((import_string env s).map (fun t => (t, ConnectorSource.CUSTOM_PATH)),
        [Event.integratePlugins]) := by
    unfold import_executor_cls
    rw [h1]
    simp [hc, hplug]
  have hs : (s == CELERY_KUBERNETES_EXECUTOR) = false := by
    simp [h0]
  constructor
  · intro t ht
    have himp : import_executor_cls env s =
        (Except.ok (t, ConnectorSource.CUSTOM_PATH), [Event.integratePlugins]) := by
      rw [hbase]
      simp [import_string, ht, Except.map]
    refine ⟨himp, ?_⟩
    unfold load_executor
    simp only [hs, Bool.false_eq_true, if_false, himp]
  · intro hn
    have himp : import_executor_cls env s =
        (Except.error (PyError.importError s), [Event.integratePlugins]) := by
      rw [hbase]
      simp [import_string, hn, Except.map]
    refine ⟨himp, ?_⟩
    unfold load_executor
    simp only [hs, Bool.false_eq_true, if_false, himp]

/-- An import environment where only the literal two-segment path
`my_plugin.MyExec` is loadable; its plugin-namespace form is not. -/
def envC1 : ImportEnv :=
  ⟨fun s => if s = "my_plugin.MyExec" then some ⟨"MyExec"⟩ else none⟩

theorem C1_witness :
    import_executor_cls envC1 "my_plugin.MyExec" =
      (Except.ok (⟨"MyExec"⟩, ConnectorSource.CUSTOM_PATH), [Event.integratePlugins]) ∧
    (load_executor envC1 "my_plugin.MyExec").1 =
      Except.ok (PyObject.inst ⟨"MyExec"⟩ []) :=
  (C1_plugin_failure_falls_through envC1 "my_plugin.MyExec"
    (by decide) (by decide) (by decide) (by decide)).1 ⟨"MyExec"⟩ (by decide)

/-- Claim C2: when resolution of a non-composite name fails at its final
strategy (`import_executor_cls` raises the low-level import error),
`load_executor` raises the user-facing configuration error instead, and its
message contains the original name string. -/
theorem C2_resolution_error_names_original (env : ImportEnv) (s m : String)
    (h0 : s ≠ CELERY_KUBERNETES_EXECUTOR)
    (h : (import_executor_cls env s).1 = Except.error (PyError.importError m)) :
    (load_executor env s).1 =
      Except.error (PyError.airflowConfigException (resolutionErrMsg s)) ∧
    ∃ a b, resolutionErrMsg s = a ++ s ++ b := by
  have hs : (s == CELERY_KUBERNETES_EXECUTOR) = false := by
    simp [h0]
  constructor
  · unfold load_executor
    simp only [hs, Bool.false_eq_true, if_false]
    rcases hi : import_executor_cls env s with ⟨res, evs⟩
    rw [hi] at h
    simp only at h
    rw [h]
  · refine ⟨"The module/attribute could not be loaded. Please check \"executor\" key in \"core\" section. Current value: \"",
      "\".", ?_⟩
    unfold resolutionErrMsg
    congr 2

theorem C2_witness :
    (load_executor envNone "totally.bogus.path.NoSuchType").1 =
      Except.error (PyError.airflowConfigException
        (resolutionErrMsg "totally.bogus.path.NoSuchType")) :=
  (C2_resolution_error_names_original envNone "totally.bogus.path.NoSuchType"
    "totally.bogus.path.NoSuchType" (by decide) rfl).1

lemma load_executor_trace_cases (env : ImportEnv) (s : String) :
    (load_executor env s).2 = [] ∨ (load_executor env s).2 = [Event.integratePlugins] := by
  rw [load_executor_trace]
  by_cases hs : (s == CELERY_KUBERNETES_EXECUTOR) = true
  · simp [hs]
  · simp only [Bool.not_eq_true] at hs
    simp only [hs, Bool.false_eq_true, if_false]
    exact import_cls_trace_cases env s

lemma load_executor_no_confGet (env : ImportEnv) (s sec key : String) :
    Event.confGet sec key ∉ (load_executor env s).2 := by
  rcases load_executor_trace_cases env s with h | h <;> simp [h]

/-- Claim C3: when the first `get_default_executor` call on an empty cache
succeeds, a second call returns the identical cached instance with no
further collaborator activity, and the configuration read
`conf.get("core", "EXECUTOR")` occurs exactly once across both calls. -/
theorem C3_default_executor_cached_once (env : ImportEnv) (conf : ConfEnv)
    (i : PyObject) (st1 : LoaderState) (ev1 : List Event)
    (h : get_default_executor env conf ⟨none⟩ = (Except.ok i, st1, ev1)) :
    get_default_executor env conf st1 = (Except.ok i, st1, []) ∧
    (ev1 ++ (get_default_executor env conf st1).2.2).count
      (Event.confGet "core" "EXECUTOR") = 1 := by
  unfold get_default_executor at h
  simp only at h
  rcases hl : load_executor env (conf.get "core" "EXECUTOR") with ⟨res, evs⟩
  rw [hl] at h
  cases res with
  | error e => simp at h
  | ok j =>
    simp only [Prod.mk.injEq, Except.ok.injEq] at h
    obtain ⟨hji, hst, hev⟩ := h
    have hsecond : get_default_executor env conf st1 = (Except.ok i, st1, []) := by
      rw [← hst, ← hji]
      rfl
    refine ⟨hsecond, ?_⟩
    rw [hsecond]
    have hnoconf2 : Event.confGet "core" "EXECUTOR" ∉ evs := by
      have := load_executor_no_confGet env (conf.get "core" "EXECUTOR") "core" "EXECUTOR"
      rw [hl] at this
      simpa using this
    rw [← hev]
    simp [List.count_cons, List.count_eq_zero.mpr hnoconf2]

/-- The configuration collaborator answering `LocalExecutor` for every key. -/
def confLocal : ConfEnv := ⟨fun _ _ => "LocalExecutor"⟩

theorem C3_witness :
    get_default_executor envC6 confLocal ⟨some (PyObject.inst ⟨"LocalExecutor"⟩ [])⟩ =
      (Except.ok (PyObject.inst ⟨"LocalExecutor"⟩ []),
        ⟨some (PyObject.inst ⟨"LocalExecutor"⟩ [])⟩, []) ∧
    ([Event.confGet "core" "EXECUTOR"] ++
      (get_default_executor envC6 confLocal
        ⟨some (PyObject.inst ⟨"LocalExecutor"⟩ [])⟩).2.2).count
      (Event.confGet "core" "EXECUTOR") = 1 :=
  C3_default_executor_cached_once envC6 confLocal (PyObject.inst ⟨"LocalExecutor"⟩ [])
    ⟨some (PyObject.inst ⟨"LocalExecutor"⟩ [])⟩ [Event.confGet "core" "EXECUTOR"] rfl

/-- Claim C10: when the first `get_default_executor` call fails, the cache
field stays unset, the configuration was read during the failing call, and
a subsequent call reads the configuration collaborator again. -/
theorem C10_error_leaves_cache_unset (env : ImportEnv) (conf : ConfEnv)
    (e : PyError) (st1 : LoaderState) (ev1 : List Event)
    (h : get_default_executor env conf ⟨none⟩ = (Except.error e, st1, ev1)) :
    st1 = ⟨none⟩ ∧
    Event.confGet "core" "EXECUTOR" ∈ ev1 ∧
    Event.confGet "core" "EXECUTOR" ∈ (get_default_executor env conf st1).2.2 := by
  unfold get_default_executor at h
  simp only at h
  rcases hl : load_executor env (conf.get "core" "EXECUTOR") with ⟨res, evs⟩
  rw [hl] at h
  cases res with
  | ok j => simp at h
  | error e2 =>
    simp only [Prod.mk.injEq, Except.error.injEq] at h
    obtain ⟨he2, hst, hev⟩ := h
    have hmem : Event.confGet "core" "EXECUTOR" ∈ ev1 := by
      rw [← hev]
      simp
    refine ⟨hst.symm, hmem, ?_⟩
    rw [hst.symm] at *
    have hagain : get_default_executor env conf ⟨none⟩ =
        (Except.error e, ⟨none⟩, ev1) := by
      unfold get_default_executor
      simp only
      rw [hl]
      simp [← he2, ← hev]
    rw [hagain]
    exact hmem

/-- The configuration collaborator answering a bogus name for every key. -/
def confBogus : ConfEnv := ⟨fun _ _ => "nope"⟩

theorem C10_witness :
    (⟨none⟩ : LoaderState) = ⟨none⟩ ∧
    Event.confGet "core" "EXECUTOR" ∈ [Event.confGet "core" "EXECUTOR"] ∧
    Event.confGet "core" "EXECUTOR" ∈ (get_default_executor envNone confBogus ⟨none⟩).2.2 :=
  C10_error_leaves_cache_unset envNone confBogus
    (PyError.airflowConfigException (resolutionErrMsg "nope")) ⟨none⟩
    [Event.confGet "core" "EXECUTOR"] rfl

end ExecutorLoader
